import Mathlib

/-!
Verification development for the elli_connect WebSocket device client.

The Rust sources are embedded shallowly:
- strings are lists of characters (`Str`);
- JSON documents are an inductive `Json` value type; serde encoding and
  decoding become structural functions on `Json`;
- the two task loops (`ConnectionManager` and `ConnectionReceiver` of
  `elli_connection.rs`, and the `ElliSocket`/`ElliReceiver` actor pair of
  `connection.rs`) become pure step functions from a state plus an input
  message to a new state together with the observable effects of that step
  (frames written to the socket, replies delivered on oneshot channels,
  whether an `unwrap` panicked);
- the outcome of a fallible socket write and the liveness of a oneshot
  receiver are inputs to the step functions, since they are decided by the
  environment;
- `f32` arithmetic of the color codec is modelled by exact rationals with an
  explicit round-to-nearest-even rounding function applied after every
  operation.
-/

/-- Rust strings, modelled as lists of characters (the pairing codes and all
wire fields in this program are ASCII, where byte indexing and character
indexing coincide). -/
abbrev Str := List Char

/-- `ConnectionStatus` from `src/elli/mod.rs`. -/
inductive ConnectionStatus where
  | Offline
  | Connected
  | Error
  | Live
  | Authenticated
deriving DecidableEq, Repr

/-- The actix error type used by `ElliConfig::from_ccc`; only the
`ParseError` variant occurs in this program. -/
inductive ContentTypeError where
  | ParseError
deriving DecidableEq, Repr

/-- `ElliConfig` from `src/elli/mod.rs`. -/
structure ElliConfig where
  host : Str
  b_code : Str
  d_code : Str
  size : Nat
deriving DecidableEq, Repr

/-- Rust `str::get(a..b)`: the slice of characters `[a, b)`, or `none` when
the range is out of bounds (`a ≤ b ≤ len` fails). -/
def strGet (s : Str) (a b : Nat) : Option Str :=
  if a ≤ b ∧ b ≤ s.length then some ((s.drop a).take (b - a)) else none

/-- Numeric value of a digit string. -/
def digitsVal (t : Str) : Nat :=
  t.foldl (fun acc c => acc * 10 + (c.toNat - 48)) 0

/-- Rust `str::parse::<usize>()` (as an `Option`, matching `.ok()`): an
optional leading plus sign followed by one or more ASCII digits. Overflow
cannot occur at the two-character lengths used here. -/
def parseUsize (s : Str) : Option Nat :=
  let t := match s with
    | '+' :: rest => rest
    | _ => s
  if t ≠ [] ∧ t.all (fun c => c.isDigit) then some (digitsVal t) else none

/-- The fixed websocket host from `ElliConfig::from_ccc`. -/
def defaultHost : Str := "wss://ws.elemon.de:443".toList

/-- `ElliConfig::parse_ccc` from `src/elli/mod.rs`. -/
def ElliConfig.parse_ccc (ccc : Str) : Except ContentTypeError (Str × Str × Option Nat) :=
  match strGet ccc 0 8 with
  | none => Except.error ContentTypeError.ParseError
  | some b_code =>
    match strGet ccc 8 16 with
    | none => Except.error ContentTypeError.ParseError
    | some d_code => Except.ok (b_code, d_code, (strGet ccc 16 18).bind parseUsize)

/-- `ElliConfig::from_ccc` from `src/elli/mod.rs`. -/
def ElliConfig.from_ccc (ccc : Str) : Except ContentTypeError ElliConfig :=
  match ElliConfig.parse_ccc ccc with
  | Except.error e => Except.error e
  | Except.ok (b_code, d_code, opt_size) =>
    Except.ok { host := defaultHost, b_code := b_code, d_code := d_code,
                size := opt_size.getD 5 }

/-- The size override as the specification words it: the decimal value of
characters `[16, 18)` when they are present and parsable, otherwise the
default `5`. -/
def sizeSpec (ccc : Str) : Nat :=
  if 18 ≤ ccc.length then (parseUsize ((ccc.drop 16).take 2)).getD 5 else 5

theorem strGet_eq_some (s : Str) (a b : Nat) (hab : a ≤ b) (hb : b ≤ s.length) :
    strGet s a b = some ((s.drop a).take (b - a)) := by
  rw [strGet, if_pos ⟨hab, hb⟩]

theorem strGet_eq_none (s : Str) (a b : Nat) (h : s.length < b) :
    strGet s a b = none := by
  rw [strGet, if_neg]
  intro hc
  omega

/-- C7: parsing a pairing code of length at least 16 yields identity code
`[0,8)`, peer code `[8,16)` and the optional decimal size `[16,18)` with
default 5; shorter codes fail with a parse error; the sample code
`0FBL3E2B3UPU4R9Z` parses to identity `0FBL3E2B`, peer `3UPU4R9Z`, size 5. -/
theorem from_ccc_spec :
    (∀ ccc : Str,
      ElliConfig.from_ccc ccc =
        if 16 ≤ ccc.length then
          Except.ok { host := defaultHost, b_code := ccc.take 8,
                      d_code := (ccc.drop 8).take 8, size := sizeSpec ccc }
        else Except.error ContentTypeError.ParseError)
    ∧ ElliConfig.from_ccc "0FBL3E2B3UPU4R9Z".toList =
        Except.ok { host := defaultHost, b_code := "0FBL3E2B".toList,
                    d_code := "3UPU4R9Z".toList, size := 5 } := by
  refine ⟨?_, by rfl⟩
  intro ccc
  by_cases h16 : 16 ≤ ccc.length
  · have e1 : strGet ccc 0 8 = some (ccc.take 8) := by
      rw [strGet_eq_some ccc 0 8 (by omega) (by omega), List.drop_zero]
    have e2 : strGet ccc 8 16 = some ((ccc.drop 8).take 8) := by
      rw [strGet_eq_some ccc 8 16 (by omega) (by omega)]
    rw [if_pos h16, ElliConfig.from_ccc, ElliConfig.parse_ccc, e1, e2]
    by_cases h18 : 18 ≤ ccc.length
    · have e3 : strGet ccc 16 18 = some ((ccc.drop 16).take 2) := by
        rw [strGet_eq_some ccc 16 18 (by omega) (by omega)]
      rw [e3, sizeSpec, if_pos h18]
      rfl
    · have e3 : strGet ccc 16 18 = none := strGet_eq_none ccc 16 18 (by omega)
      rw [e3, sizeSpec, if_neg h18]
      rfl
  · rw [if_neg h16]
    by_cases h8 : 8 ≤ ccc.length
    · have e1 : strGet ccc 0 8 = some (ccc.take 8) := by
        rw [strGet_eq_some ccc 0 8 (by omega) (by omega), List.drop_zero]
      have e2 : strGet ccc 8 16 = none := strGet_eq_none ccc 8 16 (by omega)
      rw [ElliConfig.from_ccc, ElliConfig.parse_ccc, e1, e2]
    · have e1 : strGet ccc 0 8 = none := strGet_eq_none ccc 0 8 (by omega)
      rw [ElliConfig.from_ccc, ElliConfig.parse_ccc, e1]

/-- JSON documents, the wire format produced and consumed by
`serde_json::to_string` / `from_str`. All numbers appearing in this protocol
are integers. -/
inductive Json where
  | null
  | bool (b : Bool)
  | num (n : Int)
  | str (s : Str)
  | arr (elems : List Json)
  | obj (fields : List (Str × Json))
deriving Repr

/-- First binding of a key in an association list of JSON object fields. -/
def lookupField : List (Str × Json) → Str → Option Json
  | [], _ => none
  | (k, v) :: rest, key => if k = key then some v else lookupField rest key

/-- Field lookup on a JSON object; anything else has no fields. -/
def Json.lookup : Json → Str → Option Json
  | Json.obj fields, key => lookupField fields key
  | _, _ => none

/-- serde deserialization of a `String` field: only a JSON string matches. -/
def Json.asStr : Json → Option Str
  | Json.str s => some s
  | _ => none

/-- serde deserialization of a `u8` field: an integer within byte range. -/
def Json.asU8 : Json → Option Nat
  | Json.num n => if 0 ≤ n ∧ n ≤ 255 then some n.toNat else none
  | _ => none

/-- serde deserialization of a `usize` field: a non-negative integer. -/
def Json.asUsize : Json → Option Nat
  | Json.num n => if 0 ≤ n then some n.toNat else none
  | _ => none

/-- `AuthMessage` from `src/elli/messages.rs` (the field `device_type` is
renamed to `deviceType` on the wire; the Rust field `from` is called
`from_` here because `from` is reserved in Lean). -/
structure AuthMessage where
  request : Str
  param : Str
  device_type : Str
  address : Str
  from_ : Str
deriving DecidableEq, Repr

/-- `RequestMessage` from `src/elli/messages.rs`. -/
structure RequestMessage where
  request : Str
  param : Str
  from_ : Str
  to_ : Str
deriving DecidableEq, Repr

/-- `PixelData` from `src/elli/messages.rs` (`hue`, `sat`, `val` are `u8`,
`row` and `col` are `usize`; machine integers become `Nat`). -/
structure PixelData where
  hue : Nat
  sat : Nat
  val : Nat
  row : Nat
  col : Nat
deriving DecidableEq, Repr

/-- `PixelMessage` from `src/elli/messages.rs`: a pixel and a request header,
both flattened into one JSON object. -/
structure PixelMessage where
  pixel : PixelData
  request : RequestMessage
deriving DecidableEq, Repr

/-- `AuthenticationMessage` from `src/elli/messages.rs`. -/
structure AuthenticationMessage where
  connection : Str
deriving DecidableEq, Repr

/-- `DeviceNameMessage` from `src/elli/messages.rs`. -/
structure DeviceNameMessage where
  request : Str
  name : Str
  to_ : Str
deriving DecidableEq, Repr

/-- `WriteMessage` from `src/elli/messages.rs`, internally tagged by the
`param` field (`"name"` or `"pixel"`). -/
inductive WriteMessage where
  | DeviceName (m : DeviceNameMessage)
  | Pixel (m : PixelMessage)
deriving DecidableEq, Repr

/-- `SocketMessage` from `src/elli/messages.rs`, an untagged enum: a message
with a `connection` field is an authentication reply, otherwise the `param`
tag discriminates the write shapes. -/
inductive SocketMessage where
  | Authentication (m : AuthenticationMessage)
  | Write (m : WriteMessage)
deriving DecidableEq, Repr

/-- serde serialization of `AuthMessage`. -/
def encodeAuthMessage (m : AuthMessage) : Json :=
  Json.obj [("request".toList, Json.str m.request),
            ("param".toList, Json.str m.param),
            ("deviceType".toList, Json.str m.device_type),
            ("address".toList, Json.str m.address),
            ("from".toList, Json.str m.from_)]

/-- serde serialization of `RequestMessage`. -/
def encodeRequestMessage (m : RequestMessage) : Json :=
  Json.obj [("request".toList, Json.str m.request),
            ("param".toList, Json.str m.param),
            ("from".toList, Json.str m.from_),
            ("to".toList, Json.str m.to_)]

/-- serde serialization of `PixelMessage`: the `#[serde(flatten)]` attributes
put the pixel fields and the request fields side by side in one object. -/
def encodePixelMessage (m : PixelMessage) : Json :=
  Json.obj [("hue".toList, Json.num m.pixel.hue),
            ("sat".toList, Json.num m.pixel.sat),
            ("val".toList, Json.num m.pixel.val),
            ("row".toList, Json.num m.pixel.row),
            ("col".toList, Json.num m.pixel.col),
            ("request".toList, Json.str m.request.request),
            ("param".toList, Json.str m.request.param),
            ("from".toList, Json.str m.request.from_),
            ("to".toList, Json.str m.request.to_)]

/-- serde deserialization of `AuthenticationMessage`: an object carrying a
string field `connection` (extra fields are allowed). -/
def decodeAuthenticationMessage (j : Json) : Option AuthenticationMessage :=
  ((j.lookup "connection".toList).bind Json.asStr).map AuthenticationMessage.mk

/-- serde deserialization of `DeviceNameMessage`. -/
def decodeDeviceNameMessage (j : Json) : Option DeviceNameMessage := do
  let request ← (j.lookup "request".toList).bind Json.asStr
  let name ← (j.lookup "name".toList).bind Json.asStr
  let to_ ← (j.lookup "to".toList).bind Json.asStr
  pure { request := request, name := name, to_ := to_ }

/-- serde deserialization of `PixelMessage` (both halves flattened from the
same object). -/
def decodePixelMessage (j : Json) : Option PixelMessage := do
  let hue ← (j.lookup "hue".toList).bind Json.asU8
  let sat ← (j.lookup "sat".toList).bind Json.asU8
  let val ← (j.lookup "val".toList).bind Json.asU8
  let row ← (j.lookup "row".toList).bind Json.asUsize
  let col ← (j.lookup "col".toList).bind Json.asUsize
  let request ← (j.lookup "request".toList).bind Json.asStr
  let param ← (j.lookup "param".toList).bind Json.asStr
  let from_ ← (j.lookup "from".toList).bind Json.asStr
  let to_ ← (j.lookup "to".toList).bind Json.asStr
  pure { pixel := { hue := hue, sat := sat, val := val, row := row, col := col },
         request := { request := request, param := param, from_ := from_, to_ := to_ } }

/-- serde deserialization of `WriteMessage`: tagged by `param`. -/
def decodeWriteMessage (j : Json) : Option WriteMessage :=
  match (j.lookup "param".toList).bind Json.asStr with
  | some p =>
    if p = "name".toList then (decodeDeviceNameMessage j).map WriteMessage.DeviceName
    else if p = "pixel".toList then (decodePixelMessage j).map WriteMessage.Pixel
    else none
  | none => none

/-- serde deserialization of the untagged `SocketMessage`: variants are tried
in declaration order, `Authentication` first. -/
def decodeSocketMessage (j : Json) : Option SocketMessage :=
  match decodeAuthenticationMessage j with
  | some a => some (SocketMessage.Authentication a)
  | none => (decodeWriteMessage j).map SocketMessage.Write

/-- A tokio oneshot reply channel seen from the sending side: `alive` records
whether the caller still holds the receiving end. `send` on a oneshot fails
exactly when the receiver has been dropped. -/
structure ReplyTx where
  alive : Bool
deriving DecidableEq, Repr

/-- `CommandError` from `src/elli/elli_connection.rs`. -/
structure CommandError where
  msg : Str
deriving DecidableEq, Repr

/-- `RecvSocketMsg` from `src/elli/elli_connection.rs`: the only event the
receiver task forwards to the manager task. -/
inductive RecvSocketMsg where
  | Authentication (status : Str)
deriving DecidableEq, Repr

/-- The mutable state of `ConnectionManager` from `src/elli/elli_connection.rs`
(the socket writer half is modelled through the effect lists of each step). -/
structure ManagerState where
  config : ElliConfig
  pending_auth_request : Option ReplyTx
deriving DecidableEq, Repr

/-- Observable outcome of `ConnectionManager::handle_recv_socket_msg`:
the successor state, the value delivered to the pending oneshot channel (if
any), and whether the task panicked (an `unwrap` on a failed oneshot send). -/
structure SocketMsgOutcome where
  state : ManagerState
  reply : Option (ReplyTx × Except CommandError ConnectionStatus)
  panicked : Bool
deriving Repr

/-- `ConnectionManager::handle_recv_socket_msg`: map the wire status `ok` to
`Authenticated` and anything else to `Error`; if a pending authentication
request exists, send it `Ok(connection_status)` (unwrapping the send), else
only log a warning. -/
def ConnectionManager.handle_recv_socket_msg (st : ManagerState) (msg : RecvSocketMsg) :
    SocketMsgOutcome :=
  match msg with
  | RecvSocketMsg.Authentication status =>
    let connection_status :=
      if status = "ok".toList then ConnectionStatus.Authenticated else ConnectionStatus.Error
    match st.pending_auth_request with
    | some tx =>
      { state := { st with pending_auth_request := none },
        reply := some (tx, Except.ok connection_status),
        panicked := !tx.alive }
    | none => { state := st, reply := none, panicked := false }

/-- The authenticate frame built by `ConnectionManager::authenticate`. -/
def ConnectionManager.authFrame (config : ElliConfig) : Json :=
  encodeAuthMessage
    { request := "authenticate".toList, param := "ReqL1".toList,
      device_type := "TetrisController".toList,
      address := config.d_code, from_ := config.b_code }

/-- Observable outcome of one manager command: successor state, frames handed
to the socket writer, reply delivered to the command channel, panic flag. -/
structure CmdOutcome (α : Type) where
  state : ManagerState
  sent : List Json
  reply : Option (ReplyTx × Except CommandError α)
  panicked : Bool
deriving Repr

/-- `ConnectionManager::authenticate`: encode and send the authenticate frame;
if the socket write succeeds, store the reply channel in the pending slot
(overwriting any previous value); if it fails, reply with a transport error
(unwrapping the send). `writeResult` is the outcome of `writer.send`. -/
def ConnectionManager.authenticate (st : ManagerState) (resp : ReplyTx)
    (writeResult : Except Str Unit) : CmdOutcome ConnectionStatus :=
  match writeResult with
  | Except.ok _ =>
    { state := { st with pending_auth_request := some resp },
      sent := [ConnectionManager.authFrame st.config],
      reply := none, panicked := false }
  | Except.error e =>
    { state := st,
      sent := [ConnectionManager.authFrame st.config],
      reply := some (resp, Except.error { msg := e }),
      panicked := !resp.alive }

/-- The pixel frame built by `ConnectionManager::write_pixel`: the pixel data
flattened together with a `write`/`pixel` request header addressed from the
identity code to the peer code. -/
def ConnectionManager.pixelFrame (config : ElliConfig) (data : PixelData) : Json :=
  encodePixelMessage
    { pixel := data,
      request := { request := "write".toList, param := "pixel".toList,
                   from_ := config.b_code, to_ := config.d_code } }

/-- `ConnectionManager::write_pixel`: encode and send the pixel frame; reply
`Ok(())` on success and a transport error on failure, unwrapping either
send. -/
def ConnectionManager.write_pixel (st : ManagerState) (data : PixelData) (resp : ReplyTx)
    (writeResult : Except Str Unit) : CmdOutcome Unit :=
  match writeResult with
  | Except.ok _ =>
    { state := st, sent := [ConnectionManager.pixelFrame st.config data],
      reply := some (resp, Except.ok ()), panicked := !resp.alive }
  | Except.error e =>
    { state := st, sent := [ConnectionManager.pixelFrame st.config data],
      reply := some (resp, Except.error { msg := e }), panicked := !resp.alive }

/-- Frames the manager task writes at startup, before entering its select
loop: `ConnectionManager::start_task` spawns the loop directly and writes
nothing first. -/
def ConnectionManager.startupSends : List Json := []

/-- The tail of `ElliConnection::authenticate` after the oneshot reply
arrives: `let result = res_rx.await??; self.connection_status = result;`.
Given the delivered value and the current `connection_status`, it returns the
new `connection_status` and the return value of `authenticate`. -/
def ElliConnection.authenticate_resume (received : Except CommandError ConnectionStatus)
    (connection_status : ConnectionStatus) : ConnectionStatus × Except CommandError Unit :=
  match received with
  | Except.error e => (connection_status, Except.error e)
  | Except.ok result => (result, Except.ok ())

/-- Inbound websocket frames as classified by `tokio_tungstenite`.
A `text` frame carries its decoded JSON payload (a payload that is not
well-formed JSON is subsumed by one that matches no message shape). -/
inductive Frame where
  | text (payload : Json)
  | binary
  | ping
  | pong
  | close
  | frame
deriving Repr

/-- `ConnectionReceiver::handle_text`: decode the payload; a decode failure
is an error; an authentication message is forwarded to the manager; a write
message is logged and ignored. -/
def ConnectionReceiver.handle_text (payload : Json) : Except Str (List RecvSocketMsg) :=
  match decodeSocketMessage payload with
  | none => Except.error "invalid socket message".toList
  | some (SocketMessage.Authentication a) =>
    Except.ok [RecvSocketMsg.Authentication a.connection]
  | some (SocketMessage.Write _) => Except.ok []

/-- `ConnectionReceiver::read_next`: only `Text` frames can produce events or
errors; `Ping`, `Close` and every other frame kind are logged and dropped. -/
def ConnectionReceiver.read_next (f : Frame) : Except Str (List RecvSocketMsg) :=
  match f with
  | Frame.text payload => ConnectionReceiver.handle_text payload
  | Frame.ping => Except.ok []
  | Frame.close => Except.ok []
  | _ => Except.ok []

/-- The receiver loop of `ConnectionReceiver::start_task` over a list of
inbound frames: an `Err` from `read_next` is logged with `warn!` and the loop
continues with the next frame (there is no `break` on error). Returns every
event forwarded to the manager task. -/
def ConnectionReceiver.run : List Frame → List RecvSocketMsg
  | [] => []
  | f :: rest =>
    match ConnectionReceiver.read_next f with
    | Except.ok msgs => msgs ++ ConnectionReceiver.run rest
    | Except.error _ => ConnectionReceiver.run rest

/-- `SocketConfig` from `src/elli.rs`, used by the `connection.rs` actor. -/
structure SocketConfig where
  host : Str
  b_code : Str
  d_code : Str
  size : Nat
deriving DecidableEq, Repr

/-- `OnRecv` from `src/elli/messages.rs` (module `internal`): the events the
`ElliReceiver` task forwards to the `ElliSocket` actor. -/
inductive OnRecv where
  | Authentication (status : ConnectionStatus)
  | Disconnected (status : ConnectionStatus)
  | DeviceName (name : Str) (status : ConnectionStatus)
  | Pixel (p : PixelData)
deriving DecidableEq, Repr

/-- The mutable state of `ElliSocket` from `src/elli/connection.rs`. -/
structure ElliSocketState where
  config : SocketConfig
  status : ConnectionStatus
  device_name : Str
deriving DecidableEq, Repr

/-- Observable outcome of one `ElliSocket` event: successor state, frames
handed to the socket writer, and the handler result. -/
structure OnRecvOutcome where
  state : ElliSocketState
  sent : List Json
  result : Except Str Unit
deriving Repr

/-- The device-name request frame built by `ElliSocket::request_name`. -/
def ElliSocket.nameRequestFrame (config : SocketConfig) : Json :=
  encodeRequestMessage
    { request := "read".toList, param := "name".toList,
      from_ := config.b_code, to_ := config.d_code }

/-- `ElliSocket::handle_authentication`: store the status; on `Error` fail,
otherwise immediately send the device-name request frame. `writeResult` is
the outcome of the socket write inside `request_name`. -/
def ElliSocket.handle_authentication (st : ElliSocketState) (status : ConnectionStatus)
    (writeResult : Except Str Unit) : OnRecvOutcome :=
  let st1 := { st with status := status }
  if st1.status = ConnectionStatus.Error then
    { state := st1, sent := [], result := Except.error "Authentication failed.".toList }
  else
    { state := st1, sent := [ElliSocket.nameRequestFrame st1.config],
      result := writeResult }

/-- `ElliSocket::handle_disconnected`: store the status; fail if it is
`Error`. -/
def ElliSocket.handle_disconnected (st : ElliSocketState) (status : ConnectionStatus) :
    OnRecvOutcome :=
  let st1 := { st with status := status }
  { state := st1, sent := [],
    result := if st1.status = ConnectionStatus.Error then
        Except.error "Elli disconnected because of an error".toList
      else Except.ok () }

/-- `ElliSocket::handle_device_name`: store the status and the name. -/
def ElliSocket.handle_device_name (st : ElliSocketState) (status : ConnectionStatus)
    (name : Str) : OnRecvOutcome :=
  { state := { st with status := status, device_name := name },
    sent := [], result := Except.ok () }

/-- `ElliSocket::on_rcv` from `src/elli/connection.rs`. -/
def ElliSocket.on_rcv (st : ElliSocketState) (ev : OnRecv)
    (writeResult : Except Str Unit) : OnRecvOutcome :=
  match ev with
  | OnRecv.Authentication status => ElliSocket.handle_authentication st status writeResult
  | OnRecv.Disconnected status => ElliSocket.handle_disconnected st status
  | OnRecv.DeviceName name status => ElliSocket.handle_device_name st status name
  | OnRecv.Pixel _ => { state := st, sent := [], result := Except.ok () }

/-- The status mapping of `ElliReceiver::handle_authenticated`: `ok` becomes
`Authenticated`, anything else `Error`. -/
def ElliReceiver.authStatus (connection : Str) : ConnectionStatus :=
  if connection = "ok".toList then ConnectionStatus.Authenticated else ConnectionStatus.Error

/-- `ElliReceiver::handle_text_msg`: decode the payload and forward the
corresponding event; a pixel echo is only logged. -/
def ElliReceiver.handle_text_msg (j : Json) : Except Str (List OnRecv) :=
  match decodeSocketMessage j with
  | none => Except.error "invalid socket message".toList
  | some (SocketMessage.Authentication m) =>
    Except.ok [OnRecv.Authentication (ElliReceiver.authStatus m.connection)]
  | some (SocketMessage.Write (WriteMessage.DeviceName d)) =>
    Except.ok [OnRecv.DeviceName d.name ConnectionStatus.Live]
  | some (SocketMessage.Write (WriteMessage.Pixel _)) => Except.ok []

/-- The event that the body of `ElliReceiver::handle_close` sends when the
future it returns is actually awaited. -/
def ElliReceiver.handle_close_emits : List OnRecv :=
  [OnRecv.Disconnected ConnectionStatus.Offline]

/-- `ElliReceiver::receive_msg` from `src/elli/connection.rs`. On `Close`
the source calls `self.handle_close();` without `.await`, so the returned
future is dropped before it runs and no event is emitted. -/
def ElliReceiver.receive_msg (f : Frame) : Except Str (List OnRecv) :=
  match f with
  | Frame.text j => ElliReceiver.handle_text_msg j
  | Frame.close => Except.ok []
  | Frame.binary => Except.ok []
  | Frame.ping => Except.ok []
  | Frame.pong => Except.ok []
  | Frame.frame => Except.ok []

/-- A concrete configuration, as parsed from the test pairing code. -/
def sampleConfig : ElliConfig :=
  { host := defaultHost, b_code := "0FBL3E2B".toList, d_code := "3UPU4R9Z".toList, size := 5 }

/-- The same concrete configuration for the `connection.rs` actor. -/
def sampleSocketConfig : SocketConfig :=
  { host := defaultHost, b_code := "0FBL3E2B".toList, d_code := "3UPU4R9Z".toList, size := 5 }

/-- A concrete `ElliSocket` state. -/
def sampleSocketState : ElliSocketState :=
  { config := sampleSocketConfig, status := ConnectionStatus.Live, device_name := [] }

/-- A payload that matches no wire-message shape. -/
def badPayload : Json := Json.obj []

/-- A well-formed authentication reply payload. -/
def okAuthPayload : Json := Json.obj [("connection".toList, Json.str "ok".toList)]

/-- C1 (counterexample): on a non-`ok` authentication reply the manager
fulfills the pending request with `Ok(Error)` — a successful delivery
carrying the `Error` status — and the caller side of `authenticate()`
then stores status `Error` and returns `Ok(())`, not an error. -/
theorem auth_reply_not_ok_counterexample :
    (ConnectionManager.handle_recv_socket_msg
        { config := sampleConfig, pending_auth_request := some { alive := true } }
        (RecvSocketMsg.Authentication "denied".toList)).reply
      = some ({ alive := true }, Except.ok ConnectionStatus.Error)
    ∧ ElliConnection.authenticate_resume (Except.ok ConnectionStatus.Error)
        ConnectionStatus.Connected
      = (ConnectionStatus.Error, Except.ok ()) :=
  ⟨rfl, rfl⟩

/-- C1 (amended): while a pending authenticate call exists, a reply with
connection value `ok` resolves it to `Authenticated`; any other value
resolves it to a successful reply carrying status `Error` (the call itself
returns `Ok`), the handle records that status, and the slot is cleared. -/
theorem auth_reply_resolution (cfg : ElliConfig) (tx : ReplyTx) (status : Str)
    (cur : ConnectionStatus) :
    (ConnectionManager.handle_recv_socket_msg
        { config := cfg, pending_auth_request := some tx }
        (RecvSocketMsg.Authentication status)).reply
      = some (tx, Except.ok (if status = "ok".toList then ConnectionStatus.Authenticated
                             else ConnectionStatus.Error))
    ∧ (ConnectionManager.handle_recv_socket_msg
        { config := cfg, pending_auth_request := some tx }
        (RecvSocketMsg.Authentication status)).state.pending_auth_request = none
    ∧ ElliConnection.authenticate_resume
        (Except.ok (if status = "ok".toList then ConnectionStatus.Authenticated
                    else ConnectionStatus.Error)) cur
      = ((if status = "ok".toList then ConnectionStatus.Authenticated
          else ConnectionStatus.Error), Except.ok ()) :=
  ⟨rfl, rfl, rfl⟩

/-- C2 (counterexample): the manager task sends nothing at startup, and an
`Authenticate` command does send an authenticate frame. -/
theorem startup_send_counterexample :
    ConnectionManager.startupSends = []
    ∧ (ConnectionManager.authenticate
        { config := sampleConfig, pending_auth_request := none }
        { alive := true } (Except.ok ())).sent = [ConnectionManager.authFrame sampleConfig]
    ∧ (ConnectionManager.authenticate
        { config := sampleConfig, pending_auth_request := none }
        { alive := true } (Except.ok ())).sent ≠ ConnectionManager.startupSends := by
  refine ⟨rfl, rfl, ?_⟩
  simp [ConnectionManager.authenticate, ConnectionManager.startupSends]

/-- C2 (amended): the manager task sends no frame at startup; every
`Authenticate` command encodes and sends the authenticate frame, and on a
successful socket write stores the reply channel in the pending slot
(overwriting any previous value) without replying yet; on a failed write it
replies with a transport error and leaves the slot unchanged. -/
theorem authenticate_cmd_sends_frame (st : ManagerState) (resp : ReplyTx) (e : Str) :
    ConnectionManager.startupSends = []
    ∧ (ConnectionManager.authenticate st resp (Except.ok ())).sent
        = [ConnectionManager.authFrame st.config]
    ∧ (ConnectionManager.authenticate st resp (Except.ok ())).state.pending_auth_request
        = some resp
    ∧ (ConnectionManager.authenticate st resp (Except.ok ())).reply = none
    ∧ (ConnectionManager.authenticate st resp (Except.error e)).sent
        = [ConnectionManager.authFrame st.config]
    ∧ (ConnectionManager.authenticate st resp (Except.error e)).reply
        = some (resp, Except.error { msg := e })
    ∧ (ConnectionManager.authenticate st resp (Except.error e)).state.pending_auth_request
        = st.pending_auth_request :=
  ⟨rfl, rfl, rfl, rfl, rfl, rfl, rfl⟩

/-- C3: in the `connection.rs` manager actor (`ElliSocket`), an
authentication event whose wire status was `ok` (mapped to `Authenticated`
by the receiver) makes the manager immediately send the device-name request
frame, and a device-name event (emitted with status `Live`) sets the status
to `Live` and records the name. -/
theorem auth_ok_requests_device_name (st : ElliSocketState) (w : Except Str Unit) (name : Str) :
    ElliReceiver.authStatus "ok".toList = ConnectionStatus.Authenticated
    ∧ (ElliSocket.on_rcv st (OnRecv.Authentication ConnectionStatus.Authenticated) w).sent
        = [ElliSocket.nameRequestFrame st.config]
    ∧ (ElliSocket.on_rcv st (OnRecv.DeviceName name ConnectionStatus.Live) w).state.status
        = ConnectionStatus.Live
    ∧ (ElliSocket.on_rcv st (OnRecv.DeviceName name ConnectionStatus.Live) w).state.device_name
        = name :=
  ⟨rfl, rfl, rfl, rfl⟩

/-- C4 (counterexample): a Text frame whose payload decodes to no message
shape does not stop the receiver task: the next frame is still processed and
its event is emitted. -/
theorem decode_failure_counterexample :
    decodeSocketMessage badPayload = none
    ∧ ConnectionReceiver.run [Frame.text badPayload, Frame.text okAuthPayload]
        = [RecvSocketMsg.Authentication "ok".toList] :=
  ⟨rfl, rfl⟩

/-- C4 (amended): a Text frame that fails to decode makes `read_next` return
an error, which the receiver loop logs and then skips — subsequent frames
are still processed, the task does not terminate; Ping, Pong, Binary, Close
and other frame kinds are dropped without emitting an event and without
terminating the task. -/
theorem receiver_error_continues (j : Json) (rest : List Frame) :
    (decodeSocketMessage j = none →
      ConnectionReceiver.run (Frame.text j :: rest) = ConnectionReceiver.run rest)
    ∧ ConnectionReceiver.run (Frame.ping :: rest) = ConnectionReceiver.run rest
    ∧ ConnectionReceiver.run (Frame.pong :: rest) = ConnectionReceiver.run rest
    ∧ ConnectionReceiver.run (Frame.binary :: rest) = ConnectionReceiver.run rest
    ∧ ConnectionReceiver.run (Frame.close :: rest) = ConnectionReceiver.run rest
    ∧ ConnectionReceiver.run (Frame.frame :: rest) = ConnectionReceiver.run rest := by
  refine ⟨fun h => ?_, rfl, rfl, rfl, rfl, rfl⟩
  simp [ConnectionReceiver.run, ConnectionReceiver.read_next, ConnectionReceiver.handle_text, h]

/-- Witness for the amended C4 theorem at a concrete failing payload. -/
theorem receiver_error_continues_witness :
    decodeSocketMessage badPayload = none
    ∧ ConnectionReceiver.run [Frame.text badPayload, Frame.ping]
        = ConnectionReceiver.run [Frame.ping] :=
  ⟨rfl, (receiver_error_continues badPayload [Frame.ping]).1 rfl⟩

/-- C5: evaluating the code at a `Close` frame. `ElliReceiver::receive_msg`
emits no event on `Close` (the `handle_close()` future is dropped without
being awaited), although the body of `handle_close` would emit
`Disconnected{Offline}`, and the manager actor does set status `Offline`
when it is handed that event. -/
theorem close_frame_emits_no_event :
    ElliReceiver.receive_msg Frame.close = Except.ok []
    ∧ ElliReceiver.handle_close_emits = [OnRecv.Disconnected ConnectionStatus.Offline]
    ∧ (ElliSocket.on_rcv sampleSocketState (OnRecv.Disconnected ConnectionStatus.Offline)
        (Except.ok ())).state.status = ConnectionStatus.Offline :=
  ⟨rfl, rfl, rfl⟩

/-- C6: `write_pixel` sends exactly one frame, the flattened pixel message:
its `request` field is `write`, its `param` field is `pixel`, `from` is the
identity code, `to` is the peer code, and `row`, `col`, `hue`, `sat`, `val`
equal the input pixel fields. -/
theorem write_pixel_frame_fields (st : ManagerState) (data : PixelData) (resp : ReplyTx)
    (w : Except Str Unit) :
    (ConnectionManager.write_pixel st data resp w).sent
      = [ConnectionManager.pixelFrame st.config data]
    ∧ (ConnectionManager.pixelFrame st.config data).lookup "request".toList
        = some (Json.str "write".toList)
    ∧ (ConnectionManager.pixelFrame st.config data).lookup "param".toList
        = some (Json.str "pixel".toList)
    ∧ (ConnectionManager.pixelFrame st.config data).lookup "from".toList
        = some (Json.str st.config.b_code)
    ∧ (ConnectionManager.pixelFrame st.config data).lookup "to".toList
        = some (Json.str st.config.d_code)
    ∧ (ConnectionManager.pixelFrame st.config data).lookup "row".toList
        = some (Json.num data.row)
    ∧ (ConnectionManager.pixelFrame st.config data).lookup "col".toList
        = some (Json.num data.col)
    ∧ (ConnectionManager.pixelFrame st.config data).lookup "hue".toList
        = some (Json.num data.hue)
    ∧ (ConnectionManager.pixelFrame st.config data).lookup "sat".toList
        = some (Json.num data.sat)
    ∧ (ConnectionManager.pixelFrame st.config data).lookup "val".toList
        = some (Json.num data.val) := by
  cases w <;> exact ⟨rfl, rfl, rfl, rfl, rfl, rfl, rfl, rfl, rfl, rfl⟩

/-- C9: an authentication event arriving while the pending-authentication
slot is empty leaves the manager state unchanged, fulfills no reply channel
and does not panic (the source only logs a warning). -/
theorem orphan_auth_event_ignored (cfg : ElliConfig) (status : Str) :
    ConnectionManager.handle_recv_socket_msg
        { config := cfg, pending_auth_request := none }
        (RecvSocketMsg.Authentication status)
      = { state := { config := cfg, pending_auth_request := none },
          reply := none, panicked := false } :=
  rfl

/-- C10: every reply delivery of the manager task unwraps the oneshot send,
so it panics exactly when the caller has dropped its receiving end: with a
dead receiver the authentication reply, the pixel-write success reply and
both transport-error replies all panic; with a live receiver none does. -/
theorem reply_unwrap_panics (st : ManagerState) (cfg : ElliConfig) (status : Str)
    (data : PixelData) (e : Str) :
    (ConnectionManager.handle_recv_socket_msg
        { config := cfg, pending_auth_request := some { alive := false } }
        (RecvSocketMsg.Authentication status)).panicked = true
    ∧ (ConnectionManager.write_pixel st data { alive := false } (Except.ok ())).panicked = true
    ∧ (ConnectionManager.write_pixel st data { alive := false } (Except.error e)).panicked = true
    ∧ (ConnectionManager.authenticate st { alive := false } (Except.error e)).panicked = true
    ∧ (ConnectionManager.handle_recv_socket_msg
        { config := cfg, pending_auth_request := some { alive := true } }
        (RecvSocketMsg.Authentication status)).panicked = false
    ∧ (ConnectionManager.write_pixel st data { alive := true } (Except.ok ())).panicked = false
    ∧ (ConnectionManager.authenticate st { alive := true } (Except.ok ())).panicked = false :=
  ⟨rfl, rfl, rfl, rfl, rfl, rfl, rfl⟩

/-- IEEE-754 binary32 rounding (round to nearest, ties to even), modelled on
exact rationals: the 24-bit significand of `|q|` is found by scaling with the
power of two that puts the value in `[2^23, 2^24)`. Subnormal underflow and
overflow do not occur for the bounded values of the color codec and are not
modelled. Every f32 operation of the source is this rounding applied to the
exact rational result. -/
def f32round (q : ℚ) : ℚ :=
  if q = 0 then 0
  else
    let a := |q|
    let e0 : ℤ := (Nat.log2 q.num.natAbs : ℤ) - (Nat.log2 q.den : ℤ)
    let e : ℤ := if (2:ℚ)^(e0+1) ≤ a then e0 + 1 else if a < (2:ℚ)^e0 then e0 - 1 else e0
    let s : ℚ := a * (2:ℚ)^(23 - e)
    let m0 : ℤ := ⌊s⌋
    let fr : ℚ := s - (m0:ℚ)
    let m : ℤ :=
      if fr < 1/2 then m0
      else if 1/2 < fr then m0 + 1
      else if m0 % 2 = 0 then m0 else m0 + 1
    (if q < 0 then -1 else 1) * (m:ℚ) * (2:ℚ)^(e - 23)

/-- f32 addition. -/
def f32add (a b : ℚ) : ℚ := f32round (a + b)

/-- f32 subtraction. -/
def f32sub (a b : ℚ) : ℚ := f32round (a - b)

/-- f32 multiplication. -/
def f32mul (a b : ℚ) : ℚ := f32round (a * b)

/-- f32 division. -/
def f32div (a b : ℚ) : ℚ := f32round (a / b)

/-- `f32::max` (no NaN inputs occur here). -/
def f32max (a b : ℚ) : ℚ := max a b

/-- `f32::min` (no NaN inputs occur here). -/
def f32min (a b : ℚ) : ℚ := min a b

/-- The f32 constant `1.0 / 3.0`. -/
def f32third : ℚ := f32round (1/3)

/-- The f32 constant `2.0 / 3.0`. -/
def f32twoThirds : ℚ := f32round (2/3)

/-- Rust `f32::round`: round half away from zero; the result is an exact
integer, hence exactly representable at these magnitudes. -/
def rustRound (q : ℚ) : ℚ :=
  if q < 0 then -(⌊-q + 1/2⌋ : ℚ) else (⌊q + 1/2⌋ : ℚ)

/-- Rust `as u8` applied to an f32: a saturating cast truncating toward
zero. -/
def cast_u8 (q : ℚ) : Nat :=
  if q ≤ 0 then 0 else if 255 ≤ q then 255 else (⌊q⌋).toNat

/-- `PixelData::diff_c`: `(v - c) / 6.0 / diff + 0.5` in f32 arithmetic
(`0.5` is exactly representable). -/
def PixelData.diff_c (c v diff : ℚ) : ℚ :=
  f32add (f32div (f32div (f32sub v c) 6) diff) (1/2)

/-- `PixelData::rgb_to_hsv` from `src/elli/messages.rs` over the f32 model:
inputs are the `u8` channel values, output the `(hue, sat, val)` bytes. -/
def PixelData.rgb_to_hsv (r g b : Nat) : Nat × Nat × Nat :=
  let rabs : ℚ := f32div r 255
  let gabs : ℚ := f32div g 255
  let babs : ℚ := f32div b 255
  let v : ℚ := f32max (f32max rabs gabs) babs
  let diff : ℚ := f32sub v (f32min (f32min rabs gabs) babs)
  let hs : ℚ × ℚ :=
    if diff = 0 then (0, 0)
    else
      let s := f32div diff v
      let rr := PixelData.diff_c rabs v diff
      let gg := PixelData.diff_c gabs v diff
      let bb := PixelData.diff_c babs v diff
      let h0 : ℚ :=
        if rabs = v then f32sub bb gg
        else if gabs = v then f32sub (f32add f32third rr) bb
        else if babs = v then f32sub (f32add f32twoThirds gg) rr
        else 0
      let h1 : ℚ := if h0 < 0 then f32add h0 1 else if 1 < h0 then f32sub h0 1 else h0
      (h1, s)
  let h_abs : ℚ := f32mul hs.1 255
  let s_abs : ℚ := f32mul hs.2 255
  let v_abs : ℚ := f32mul v 255
  (cast_u8 (rustRound h_abs), cast_u8 (rustRound s_abs), cast_u8 (rustRound v_abs))

/-- The value byte of a channel value: `round((c/255)*255)` in f32
arithmetic, cast to `u8`; the third output of the codec. -/
def valueByte (c : Nat) : Nat := cast_u8 (rustRound (f32mul (f32div c 255) 255))

theorem f32round_zero : f32round 0 = 0 := by
  simp [f32round]

theorem f32sub_self (x : ℚ) : f32sub x x = 0 := by
  rw [f32sub, sub_self, f32round_zero]

theorem f32mul_zero (y : ℚ) : f32mul 0 y = 0 := by
  rw [f32mul, zero_mul, f32round_zero]

theorem rustRound_zero : rustRound 0 = 0 := by
  rw [rustRound, if_neg (lt_irrefl 0), zero_add]
  have h : ⌊(1/2 : ℚ)⌋ = 0 := by
    rw [Int.floor_eq_zero_iff]
    constructor <;> norm_num
  rw [h]
  norm_num

theorem cast_u8_zero : cast_u8 0 = 0 := by
  simp [cast_u8]

theorem cast_u8_le (q : ℚ) : cast_u8 q ≤ 255 := by
  rw [cast_u8]
  split
  · omega
  · split
    · omega
    · rename_i hq
      have h : ⌊q⌋ < 255 := by
        rw [Int.floor_lt]
        push_cast
        exact lt_of_not_le hq
      omega

/-- C8: for every channel triple the color codec returns bytes bounded by
255 in each component, and a gray input (all three channels equal) yields
hue 0 and saturation 0 with the value byte as third component. -/
theorem rgb_to_hsv_range_and_gray (r g b : Nat) :
    (PixelData.rgb_to_hsv r g b).1 ≤ 255
    ∧ (PixelData.rgb_to_hsv r g b).2.1 ≤ 255
    ∧ (PixelData.rgb_to_hsv r g b).2.2 ≤ 255
    ∧ PixelData.rgb_to_hsv r r r = (0, 0, valueByte r) := by
  refine ⟨cast_u8_le _, cast_u8_le _, cast_u8_le _, ?_⟩
  unfold PixelData.rgb_to_hsv valueByte
  simp only [f32max, f32min, max_self, min_self, f32sub_self, eq_self_iff_true, if_true,
    f32mul_zero, rustRound_zero, cast_u8_zero]
